import Mathlib

/-!
Service registration and lifecycle of `gin_microservice_template`

A shallow embedding of the Go sources

* `internal/config/config.go` (configuration model, address and port resolution),
* `internal/services/consul_service.go` (identity, validation, registrar),
* `internal/api/v1/health_controller.go` (health endpoint),
* `cmd/server/main.go` (process lifecycle),

followed by theorems about them.

Conventions of the embedding:

* a Go `string` is a Lean `String`; a Go `int` is an `Int` (the 64-bit range matters only
  where `strconv.Atoi` rejects out-of-range literals, and is explicit there);
* a Go `error` is an `Option String`: `none` is `nil`, `some msg` is an error with that message;
* calls that leave the process (environment, hostname, sockets, the Consul agent) take their
  outcome from an explicit argument.
-/

namespace GinTemplate

/-! ## `fmt` and `strconv` fragments used by the sources -/

/-- ASCII digit for a value below ten. -/
def digitChar (d : Nat) : Char := Char.ofNat (48 + d % 10)

/-- Decimal digits of `n`, most significant first, pushed in front of `acc`
(the loop of `strconv.formatBits` for base 10). -/
def formatBits : Nat → Nat → List Char → List Char
  | 0, _, acc => acc
  | fuel + 1, n, acc =>
    if n < 10 then digitChar n :: acc
    else formatBits fuel (n / 10) (digitChar (n % 10) :: acc)

/-- Decimal rendering of a natural number. -/
def formatUint (n : Nat) : List Char := formatBits (n + 1) n []

/-- Decimal rendering of a Go `int`, as `strconv.Itoa` and the verb `%d` produce it. -/
def formatInt (i : Int) : List Char :=
  if i < 0 then '-' :: formatUint i.natAbs else formatUint i.natAbs

/-- Go `strconv.Itoa`. -/
def Itoa (i : Int) : String := String.mk (formatInt i)

/-- Operand of a formatting call. -/
inductive FmtArg where
  | str (s : String)
  | int (i : Int)

/-- Interpreter for the fragment of `fmt.Sprintf` / `fmt.Errorf` the sources use: the verbs `%s`
(string operand), `%d` (integer operand) and `%w` (error operand, given by its message); every
other character is copied. -/
def sprintfAux : List Char → List FmtArg → List Char
  | [], _ => []
  | '%' :: 's' :: rest, FmtArg.str s :: args => s.data ++ sprintfAux rest args
  | '%' :: 'w' :: rest, FmtArg.str s :: args => s.data ++ sprintfAux rest args
  | '%' :: 'd' :: rest, FmtArg.int i :: args => formatInt i ++ sprintfAux rest args
  | c :: rest, args => c :: sprintfAux rest args

/-- Go `fmt.Sprintf`, on the fragment above. -/
def Sprintf (format : String) (args : List FmtArg) : String :=
  String.mk (sprintfAux format.data args)

/-- Go `fmt.Errorf`: the message of the error it builds. -/
def Errorf (format : String) (args : List FmtArg) : String := Sprintf format args

/-- Whether a byte is an ASCII decimal digit. -/
def isDigit (c : Char) : Bool := decide (48 ≤ c.toNat) && decide (c.toNat ≤ 57)

/-- Base-10 accumulation loop of `strconv.ParseUint`: `none` on a character that is not a digit. -/
def parseDigits : List Char → Nat → Option Nat
  | [], acc => some acc
  | c :: cs, acc => if isDigit c then parseDigits cs (acc * 10 + (c.toNat - 48)) else none

/-- Unsigned part of `strconv.Atoi`: at least one character, all of them digits. -/
def parseUint (ds : List Char) : Option Nat :=
  if ds = [] then none else parseDigits ds 0

/-- Go `strconv.Atoi` on a 64-bit platform: an optional sign, then one or more decimal digits,
and the value must lie in `[-2^63, 2^63 - 1]`; `none` stands for a non-nil error (syntax or
range). -/
def Atoi (s : String) : Option Int :=
  match s.data with
  | [] => none
  | '-' :: ds =>
    match parseUint ds with
    | some n => if n ≤ 2 ^ 63 then some (-(n : Int)) else none
    | none => none
  | '+' :: ds =>
    match parseUint ds with
    | some n => if n < 2 ^ 63 then some (n : Int) else none
    | none => none
  | ds =>
    match parseUint ds with
    | some n => if n < 2 ^ 63 then some (n : Int) else none
    | none => none

/-! ## `internal/config/config.go`: the configuration model -/

/-- Go `AppConfig`. -/
structure AppConfig where
  Env : String
  Port : String
  Name : String
  deriving DecidableEq, Repr

/-- Go `ConsulMetaConfig`. -/
structure ConsulMetaConfig where
  RoutePrefix : String
  StripPrefix : String
  BasePath : String
  ServiceType : String
  Version : String
  Framework : String
  Language : String
  HealthPath : String
  MetricsPath : String
  MetricsNamespace : String
  InfoPath : String
  Weight : String
  LbPolicy : String
  TimeoutMs : String
  Retries : String
  DependPostgres : String
  DependRedis : String
  DependRabbitmq : String
  DependMysql : String
  deriving DecidableEq, Repr

/-- Go `ConsulConfig`. -/
structure ConsulConfig where
  Address : String
  Token : String
  Enabled : Bool
  Meta : ConsulMetaConfig
  deriving DecidableEq, Repr

/-- Go `ServiceConfig`. -/
structure ServiceConfig where
  Address : String
  Port : Int
  Scheme : String
  HealthCheckAddress : String
  deriving DecidableEq, Repr

/-- Go `Config`, restricted to the parts read by registration, health and lifecycle
(`Log` and `Server` hold only logging and listener settings). -/
structure Config where
  App : AppConfig
  Consul : ConsulConfig
  Service : ServiceConfig
  deriving DecidableEq, Repr

/-- Go `(*Config).IsConsulEnabled`. -/
def Config.IsConsulEnabled (c : Config) : Bool := c.Consul.Enabled

/-- Go `(*Config).GetServiceURL`. -/
def Config.GetServiceURL (c : Config) : String :=
  c.Service.Scheme ++ "://" ++ c.Service.Address ++ ":" ++ Itoa c.Service.Port

/-- Go `(*Config).GetHealthCheckURL`. -/
def Config.GetHealthCheckURL (c : Config) : String :=
  c.GetServiceURL ++ "/health"

/-- Go `(*Config).GetConsulHealthCheckURL`. -/
def Config.GetConsulHealthCheckURL (c : Config) : String :=
  if c.Service.HealthCheckAddress ≠ "" then
    c.Service.Scheme ++ "://" ++ c.Service.HealthCheckAddress ++ ":" ++ Itoa c.Service.Port
      ++ "/health"
  else
    c.GetHealthCheckURL

/-! ## `internal/services/consul_service.go`: identity and validation -/

/-- Go `generateServiceID`. -/
def generateServiceID (cfg : Config) : String :=
  Sprintf "%s-%s-%d"
    [FmtArg.str cfg.App.Name, FmtArg.str cfg.Service.Address, FmtArg.int cfg.Service.Port]

/-- Go `ValidateConfig`: `none` is the `nil` error. -/
def ValidateConfig (cfg : Config) : Option String :=
  if !cfg.IsConsulEnabled then
    some (Errorf "Consul 未启用" [])
  else if cfg.Consul.Address = "" then
    some (Errorf "Consul 地址不能为空" [])
  else if cfg.Service.Address = "" then
    some (Errorf "服务地址不能为空" [])
  else if cfg.Service.Port ≤ 0 then
    some (Errorf "服务端口无效: %d" [FmtArg.int cfg.Service.Port])
  else if cfg.Service.Scheme ≠ "http" ∧ cfg.Service.Scheme ≠ "https" then
    some (Errorf "服务协议必须是 http 或 https: %s" [FmtArg.str cfg.Service.Scheme])
  else
    none

/-! ## `internal/config/config.go`: address and port resolution -/

/-- What the process can observe of its host: the environment (the resolution functions read it
as it stands after `LoadConfig` has read the `.env` files), the result of `os.Hostname()`, and the
result of the outbound probe `net.Dial("udp", "8.8.8.8:80")` (on success, the text of the local
endpoint's IP). -/
structure World where
  env : List (String × String)
  hostname : Except String String
  outbound : Except String String

/-- Go `os.Getenv`: the empty string when the variable is unset. -/
def World.Getenv (w : World) (key : String) : String :=
  match w.env.lookup key with
  | some v => v
  | none => ""

/-- Go `getEnv`. -/
def getEnv (w : World) (key defaultValue : String) : String :=
  let value := w.Getenv key
  if value = "" then defaultValue else value

/-- Go `getOutboundIP`. -/
def getOutboundIP (w : World) : String :=
  match w.outbound with
  | .error _ => ""
  | .ok ip => ip

/-- Last two steps of `getServiceAddress`: the outbound IP, else the literal `"localhost"`. -/
def getServiceAddress.fromProbe (w : World) : String :=
  let ip := getOutboundIP w
  if ip ≠ "" then ip else "localhost"

/-- Go `getServiceAddress`. -/
def getServiceAddress (w : World) : String :=
  let addr := w.Getenv "SERVICE_ADDRESS"
  if addr ≠ "" then addr
  else
    match w.hostname with
    | .ok hostname =>
      if hostname ≠ "" then
        if hostname ≠ "localhost" ∧ hostname ≠ "127.0.0.1" then hostname
        else getServiceAddress.fromProbe w
      else getServiceAddress.fromProbe w
    | .error _ => getServiceAddress.fromProbe w

/-- Last two steps of `getServicePort`: `appPort` if it parses, else `8080`. -/
def getServicePort.fromAppPort (appPort : String) : Int :=
  match Atoi appPort with
  | some port => port
  | none => 8080

/-- Go `getServicePort`. -/
def getServicePort (w : World) (appPort : String) : Int :=
  let portStr := w.Getenv "SERVICE_PORT"
  if portStr ≠ "" then
    match Atoi portStr with
    | some port => port
    | none => getServicePort.fromAppPort appPort
  else getServicePort.fromAppPort appPort

/-! ## `internal/services/consul_service.go`: the registrar -/

/-- Go `api.Config`, the fields the sources set. -/
structure ClientConfig where
  Address : String
  Token : String
  deriving DecidableEq, Repr

/-- Go `*api.Client`. -/
structure Client where
  config : ClientConfig
  deriving DecidableEq, Repr

/-- Go `api.AgentServiceCheck`, the fields the sources set. -/
structure AgentServiceCheck where
  HTTP : String
  Interval : String
  Timeout : String
  DeregisterCriticalServiceAfter : String
  deriving DecidableEq, Repr

/-- Go `api.AgentServiceRegistration`, the fields the sources set. -/
structure AgentServiceRegistration where
  ID : String
  Name : String
  Address : String
  Port : Int
  Tags : List String
  Meta : List (String × String)
  Check : AgentServiceCheck
  deriving DecidableEq, Repr

/-- The Consul agent, as far as the registrar talks to it: the registrations it holds. -/
structure Agent where
  services : List AgentServiceRegistration
  deriving DecidableEq, Repr

/-- Agent call `ServiceRegister`: `fail` is the transport or agent error, if any; on success the
record replaces any record held under the same ID. -/
def Agent.ServiceRegister (agent : Agent) (fail : Option String)
    (service : AgentServiceRegistration) : Option String × Agent :=
  match fail with
  | some e => (some e, agent)
  | none => (none, { services := service :: agent.services.filter (fun s => s.ID ≠ service.ID) })

/-- Agent call `ServiceDeregister`: `fail` is the transport error, if any; removing an ID the agent
does not hold is reported as an error (the agent's "unknown service ID" answer). -/
def Agent.ServiceDeregister (agent : Agent) (fail : Option String)
    (serviceID : String) : Option String × Agent :=
  match fail with
  | some e => (some e, agent)
  | none =>
    if agent.services.any (fun s => s.ID = serviceID) then
      (none, { services := agent.services.filter (fun s => s.ID ≠ serviceID) })
    else
      (some (Sprintf "Unknown service ID %s" [FmtArg.str serviceID]), agent)

/-- Go `context.Context`, reduced to its deadline (a duration in nanoseconds from its creation). -/
structure Context where
  timeout : Option Nat
  deriving DecidableEq, Repr

/-- Go `time.Second`, in nanoseconds. -/
def Second : Nat := 1000000000

/-- Go `context.WithTimeout(context.Background(), d)`. -/
def WithTimeout (d : Nat) : Context := { timeout := some d }

/-- Go `ConsulRegistry`. -/
structure ConsulRegistry where
  client : Client
  config : Config
  serviceID : String
  deriving DecidableEq, Repr

/-- Outcomes of the calls into `github.com/hashicorp/consul/api` that do not reach the agent:
`api.DefaultConfig()` and the error of `api.NewClient`, if any. -/
structure Api where
  DefaultConfig : ClientConfig
  NewClient : ClientConfig → Option String

/-- Go `NewConsulRegistry`. -/
def NewConsulRegistry (api : Api) (cfg : Config) : Except String ConsulRegistry :=
  let consulConfig := { api.DefaultConfig with Address := cfg.Consul.Address }
  let consulConfig :=
    if cfg.Consul.Token ≠ "" then { consulConfig with Token := cfg.Consul.Token } else consulConfig
  match api.NewClient consulConfig with
  | some err => .error (Errorf "创建 Consul 客户端失败: %w" [FmtArg.str err])
  | none =>
    .ok { client := { config := consulConfig }, config := cfg, serviceID := generateServiceID cfg }

/-- The record `service` that `(*ConsulRegistry).Register` builds before submitting it. -/
def ConsulRegistry.Register.service (r : ConsulRegistry) : AgentServiceRegistration :=
  { ID := r.serviceID
    Name := r.config.App.Name
    Address := r.config.Service.Address
    Port := r.config.Service.Port
    Tags := ["oss-file", "microservice", "file-transfer"]
    Meta := [
      ("route_prefixes", r.config.Consul.Meta.RoutePrefix),
      ("strip_prefix", r.config.Consul.Meta.StripPrefix),
      ("base_path", r.config.Consul.Meta.BasePath),
      ("service_type", r.config.Consul.Meta.ServiceType),
      ("version", r.config.Consul.Meta.Version),
      ("framework", r.config.Consul.Meta.Framework),
      ("language", r.config.Consul.Meta.Language),
      ("health_path", r.config.Consul.Meta.HealthPath),
      ("metrics_path", r.config.Consul.Meta.MetricsPath),
      ("metrics_namespace", r.config.Consul.Meta.MetricsNamespace),
      ("info_path", r.config.Consul.Meta.InfoPath),
      ("weight", r.config.Consul.Meta.Weight),
      ("lb_policy", r.config.Consul.Meta.LbPolicy),
      ("timeout_ms", r.config.Consul.Meta.TimeoutMs),
      ("retries", r.config.Consul.Meta.Retries),
      ("depend_postgres", r.config.Consul.Meta.DependPostgres),
      ("depend_redis", r.config.Consul.Meta.DependRedis),
      ("depend_rabbitmq", r.config.Consul.Meta.DependRabbitmq),
      ("depend_mysql", r.config.Consul.Meta.DependMysql),
      ("environment", r.config.App.Env),
      ("scheme", r.config.Service.Scheme)]
    Check :=
      { HTTP := r.config.GetConsulHealthCheckURL
        Interval := "10s"
        Timeout := "5s"
        DeregisterCriticalServiceAfter := "60s" } }

/-- Go `(*ConsulRegistry).Register`: the error returned and the agent afterwards. The context is
accepted and not consulted, as in the source. -/
def ConsulRegistry.Register (r : ConsulRegistry) (_ctx : Context) (fail : Option String)
    (agent : Agent) : Option String × Agent :=
  let service := ConsulRegistry.Register.service r
  match agent.ServiceRegister fail service with
  | (some err, agent) => (some (Errorf "注册服务到 Consul 失败: %w" [FmtArg.str err]), agent)
  | (none, agent) => (none, agent)

/-- Go `(*ConsulRegistry).Deregister`. -/
def ConsulRegistry.Deregister (r : ConsulRegistry) (_ctx : Context) (fail : Option String)
    (agent : Agent) : Option String × Agent :=
  match agent.ServiceDeregister fail r.serviceID with
  | (some err, agent) => (some (Errorf "从 Consul 注销服务失败: %w" [FmtArg.str err]), agent)
  | (none, agent) => (none, agent)

/-- Go `(*ConsulRegistry).IsHealthy`: `leader` is the result of `client.Status().Leader()`. -/
def ConsulRegistry.IsHealthy (_r : ConsulRegistry) (leader : Except String String) : Bool :=
  match leader with
  | .error _ => false
  | .ok _ => true

/-! ## `internal/api/v1/health_controller.go`: the health endpoint -/

/-- The JSON object `healthStatus` of `HealthHandler`: a Go `map[string]interface{}` with the keys
`status`, `message`, `timestamp`, `service` and `dependencies`; the two nested maps are kept as
association lists. -/
structure HealthStatus where
  status : String
  message : String
  timestamp : Int
  service : List (String × String)
  dependencies : List (String × List (String × String))
  deriving DecidableEq, Repr

/-- What `c.JSON(code, obj)` writes. -/
structure Response where
  code : Nat
  body : HealthStatus
  deriving DecidableEq, Repr

/-- Go `http.StatusOK`. -/
def StatusOK : Nat := 200

/-- Go `HealthHandler`: `cfg` is `config.GlobalConfig`, `now` is `time.Now().Unix()`, `api` gives
the outcome of client construction and `leader` the outcome of the agent's leader probe. -/
def HealthHandler (cfg : Config) (now : Int) (api : Api) (leader : Except String String) :
    Response :=
  let healthStatus : HealthStatus :=
    { status := "healthy"
      message := "认证服务运行正常"
      timestamp := now
      service := [("name", cfg.App.Name), ("version", cfg.Consul.Meta.Version),
        ("env", cfg.App.Env)]
      dependencies := [] }
  let healthStatus :=
    if cfg.IsConsulEnabled then
      match NewConsulRegistry api cfg with
      | .error err =>
        { healthStatus with
          dependencies := healthStatus.dependencies.filter (fun kv => kv.1 ≠ "consul") ++
            [("consul", [("status", "unhealthy"), ("error", err)])] }
      | .ok consulRegistry =>
        let consulHealthy := consulRegistry.IsHealthy leader
        let consulStatus := if !consulHealthy then "unhealthy" else "healthy"
        { healthStatus with
          dependencies := healthStatus.dependencies.filter (fun kv => kv.1 ≠ "consul") ++
            [("consul", [("status", consulStatus), ("address", cfg.Consul.Address)])] }
    else healthStatus
  { code := StatusOK, body := healthStatus }

/-! ## `cmd/server/main.go`: the process lifecycle -/

/-- Calls and transitions of one run of `main`, in program order. -/
inductive Event where
  | ValidateConfig (err : Option String)
  | NewConsulRegistry (err : Option String)
  | Register (serviceID : String) (err : Option String)
  | ListenAndServe (err : Option String)
  | Signal
  | Deregister (serviceID : String) (err : Option String)
  | Shutdown (err : Option String)
  | Exit (code : Nat)
  deriving DecidableEq, Repr

/-- Outcomes, fixed for one run, of what `main` does outside the process: the Consul client
library, the agent's answers to register and deregister, whether the listener fails (an error
other than `http.ErrServerClosed`), whether a termination signal arrives, and the result of the
listener drain. -/
structure Outcomes where
  api : Api
  registerFail : Option String
  listenFail : Option String
  signal : Bool
  deregisterFail : Option String
  shutdownFail : Option String

/-- State of `main` after a block: the variable `consulRegistry` (`none` is `nil`), the agent,
and the events so far. -/
structure MainState where
  consulRegistry : Option ConsulRegistry
  agent : Agent
  trace : List Event
  deriving DecidableEq, Repr

/-- The block of `main` that initialises Consul registration (`var consulRegistry` up to the
end of the `if cfg.IsConsulEnabled()` statement). -/
def main.initConsul (cfg : Config) (o : Outcomes) (agent : Agent) : MainState :=
  if cfg.IsConsulEnabled then
    match ValidateConfig cfg with
    | some err =>
      { consulRegistry := none, agent := agent, trace := [Event.ValidateConfig (some err)] }
    | none =>
      match NewConsulRegistry o.api cfg with
      | .error err =>
        { consulRegistry := none, agent := agent,
          trace := [Event.ValidateConfig none, Event.NewConsulRegistry (some err)] }
      | .ok consulRegistry =>
        let ctx := WithTimeout (10 * Second)
        let (err, agent) := consulRegistry.Register ctx o.registerFail agent
        { consulRegistry := some consulRegistry, agent := agent,
          trace := [Event.ValidateConfig none, Event.NewConsulRegistry none,
            Event.Register consulRegistry.serviceID err] }
  else
    { consulRegistry := none, agent := agent, trace := [] }

/-- The block of `main` after the signal: deregistration when `consulRegistry != nil`, then
`server.Shutdown`, then exit (`logrus.Fatalf` exits with status 1). -/
def main.shutdown (st : MainState) (o : Outcomes) : MainState :=
  let ctx := WithTimeout (5 * Second)
  let st :=
    match st.consulRegistry with
    | some consulRegistry =>
      let (err, agent) := consulRegistry.Deregister ctx o.deregisterFail st.agent
      { st with agent := agent, trace := st.trace ++ [Event.Deregister consulRegistry.serviceID err] }
    | none => st
  match o.shutdownFail with
  | some err => { st with trace := st.trace ++ [Event.Shutdown (some err), Event.Exit 1] }
  | none => { st with trace := st.trace ++ [Event.Shutdown none, Event.Exit 0] }

/-- Go `main`, from the point where `config.LoadConfig()` has returned `cfg`: Consul
initialisation, start of the listener, wait for the signal, shutdown. A listener failure ends the
process through `logrus.Fatalf`; without a signal the process stays in the wait. -/
def main (cfg : Config) (o : Outcomes) (agent : Agent) : MainState :=
  let st := main.initConsul cfg o agent
  match o.listenFail with
  | some err => { st with trace := st.trace ++ [Event.ListenAndServe (some err), Event.Exit 1] }
  | none =>
    let st := { st with trace := st.trace ++ [Event.ListenAndServe none] }
    if o.signal then
      main.shutdown { st with trace := st.trace ++ [Event.Signal] } o
    else st

/-- Whether an event is a call of `Register`. -/
def Event.isRegister : Event → Bool
  | Event.Register _ _ => true
  | _ => false

/-- Whether an event is a call of `Deregister`. -/
def Event.isDeregister : Event → Bool
  | Event.Deregister _ _ => true
  | _ => false

/-- Whether an event is a call of `Register` that returned `nil`. -/
def Event.isRegisterOk : Event → Bool
  | Event.Register _ none => true
  | _ => false

/-- Whether an event is the start of the listener (`server.ListenAndServe()` in the background
task). -/
def Event.isListenAndServe : Event → Bool
  | Event.ListenAndServe _ => true
  | _ => false

/-- Whether an event is the listener drain (`server.Shutdown`). -/
def Event.isShutdown : Event → Bool
  | Event.Shutdown _ => true
  | _ => false

/-- Whether an event is the end of the process. -/
def Event.isExit : Event → Bool
  | Event.Exit _ => true
  | _ => false

/-! ## `internal/services/consul_service.go`: looking up the registration -/

/-- Go `api.AgentService`, the fields that come from the registration. -/
structure AgentService where
  ID : String
  Service : String
  Tags : List String
  Meta : List (String × String)
  Port : Int
  Address : String
  deriving DecidableEq, Repr

/-- Agent call `Services`: the map from service ID to the service held under it; `fail` is the
transport error, if any. -/
def Agent.Services (agent : Agent) (fail : Option String) :
    Except String (List (String × AgentService)) :=
  match fail with
  | some e => .error e
  | none =>
    .ok (agent.services.map fun s =>
      (s.ID, { ID := s.ID, Service := s.Name, Tags := s.Tags, Meta := s.Meta, Port := s.Port,
               Address := s.Address }))

/-- Go `(*ConsulRegistry).GetServiceInfo`. -/
def ConsulRegistry.GetServiceInfo (r : ConsulRegistry) (_ctx : Context) (fail : Option String)
    (agent : Agent) : Except String AgentService :=
  match agent.Services fail with
  | .error err => .error (Errorf "获取服务信息失败: %w" [FmtArg.str err])
  | .ok services =>
    match services.lookup r.serviceID with
    | none => .error (Errorf "服务 %s 未找到" [FmtArg.str r.serviceID])
    | some service => .ok service

/-! ## Registration with the duration of the agent call made explicit -/

/-- Answer of the agent to one call: an answer (an error or success) after `elapsed` nanoseconds,
or no answer at all. -/
inductive AgentReply where
  | after (elapsed : Nat) (fail : Option String)
  | never
  deriving DecidableEq, Repr

/-- Go `(*ConsulRegistry).Register`, with the time it takes: `r.client.Agent().ServiceRegister`
is called without the context, so `Register` returns when that call returns, after the call's
own duration, and does not return (`none`) when the call gets no answer. -/
def ConsulRegistry.Register.timed (r : ConsulRegistry) (ctx : Context) (reply : AgentReply)
    (agent : Agent) : Option (Nat × Option String × Agent) :=
  match reply with
  | AgentReply.after elapsed fail => some (elapsed, r.Register ctx fail agent)
  | AgentReply.never => none

/-- The Consul block of `main` with the time spent in `Register`: the time and the state after
the block, or `none` when `Register` does not return, in which case `main` never gets to the
statement that starts the listener. -/
def main.initConsul.timed (cfg : Config) (api : Api) (reply : AgentReply) (agent : Agent) :
    Option (Nat × MainState) :=
  if cfg.IsConsulEnabled then
    match ValidateConfig cfg with
    | some err =>
      some (0, { consulRegistry := none, agent := agent,
                 trace := [Event.ValidateConfig (some err)] })
    | none =>
      match NewConsulRegistry api cfg with
      | .error err =>
        some (0, { consulRegistry := none, agent := agent,
                   trace := [Event.ValidateConfig none, Event.NewConsulRegistry (some err)] })
      | .ok consulRegistry =>
        let ctx := WithTimeout (10 * Second)
        match ConsulRegistry.Register.timed consulRegistry ctx reply agent with
        | none => none
        | some (elapsed, err, agent) =>
          some (elapsed, { consulRegistry := some consulRegistry, agent := agent,
                           trace := [Event.ValidateConfig none, Event.NewConsulRegistry none,
                             Event.Register consulRegistry.serviceID err] })
  else
    some (0, { consulRegistry := none, agent := agent, trace := [] })

/-! ## `internal/config/config.go`: loading the configuration -/

/-- Go `getBool`. -/
def getBool (w : World) (key : String) (defaultValue : Bool) : Bool :=
  let valueStr := getEnv w key ""
  if valueStr = "" then defaultValue
  else if valueStr ∈ ["true", "True", "TRUE", "1", "yes", "Yes", "YES"] then true
  else if valueStr ∈ ["false", "False", "FALSE", "0", "no", "No", "NO"] then false
  else defaultValue

/-- The `.env` files as `godotenv` reads them: for a file name, the key/value pairs the file
parses to, or the error of opening or parsing it. -/
structure DotEnvFiles where
  read : String → Except String (List (String × String))

/-- Go `godotenv.Load(filename)`: on an error nothing is set; otherwise every variable of the
file that the environment does not have yet is set. -/
def godotenv.Load (files : DotEnvFiles) (w : World) (filename : String) : Option String × World :=
  match files.read filename with
  | .error err => (some err, w)
  | .ok pairs =>
    (none, { w with env := w.env ++ pairs.filter (fun kv => !(w.env.any (fun e => e.1 = kv.1))) })

/-- Go `LoadConfig`, for the parts of `Config` kept here: the configuration (also stored in
`GlobalConfig`) and the error, which is always `nil`. `w` is the host before the `.env` files are
read. -/
def LoadConfig (files : DotEnvFiles) (w : World) : Config × Option String :=
  let env := w.Getenv "APP_ENV"
  let env := if env = "" then "development" else env
  let envFile :=
    if env = "production" then ".env.production"
    else if env = "development" then ".env.dev"
    else ".env.dev"
  let w :=
    match godotenv.Load files w envFile with
    | (some _, w) => (godotenv.Load files w ".env").2
    | (none, w) => w
  let config : Config :=
    { App :=
        { Env := getEnv w "APP_ENV" "development"
          Port := getEnv w "APP_PORT" "8080"
          Name := getEnv w "APP_NAME" "auth-service" }
      Consul :=
        { Address := getEnv w "CONSUL_HTTP_ADDR" "http://127.0.0.1:8500"
          Token := getEnv w "CONSUL_HTTP_TOKEN" ""
          Enabled := getBool w "CONSUL_ENABLED" true
          Meta :=
            { RoutePrefix := getEnv w "CONSUL_ROUTE_PREFIX" "/auth-service"
              StripPrefix := getEnv w "CONSUL_STRIP_PREFIX" "true"
              BasePath := getEnv w "CONSUL_BASE_PATH" "/"
              ServiceType := getEnv w "CONSUL_SERVICE_TYPE" "auth-service"
              Version := getEnv w "CONSUL_VERSION" "v1.0.0"
              Framework := getEnv w "CONSUL_FRAMEWORK" "gin"
              Language := getEnv w "CONSUL_LANGUAGE" "go"
              HealthPath := getEnv w "CONSUL_HEALTH_PATH" "/health"
              MetricsPath := getEnv w "CONSUL_METRICS_PATH" "/metrics"
              MetricsNamespace := getEnv w "CONSUL_METRICS_NAMESPACE" "auth_service"
              InfoPath := getEnv w "CONSUL_INFO_PATH" "/api/v1/stats"
              Weight := getEnv w "CONSUL_WEIGHT" "100"
              LbPolicy := getEnv w "CONSUL_LB_POLICY" "weighted_round_robin"
              TimeoutMs := getEnv w "CONSUL_TIMEOUT_MS" "30000"
              Retries := getEnv w "CONSUL_RETRIES" "2"
              DependPostgres := getEnv w "CONSUL_DEPEND_POSTGRES" "false"
              DependRedis := getEnv w "CONSUL_DEPEND_REDIS" "false"
              DependRabbitmq := getEnv w "CONSUL_DEPEND_RABBITMQ" "false"
              DependMysql := getEnv w "CONSUL_DEPEND_MYSQL" "false" } }
      Service :=
        { Address := getServiceAddress w
          Port := getServicePort w (getEnv w "APP_PORT" "8080")
          Scheme := getEnv w "SERVICE_SCHEME" "http"
          HealthCheckAddress := getEnv w "CONSUL_HEALTH_CHECK_ADDRESS" "" } }
  (config, none)

/-! ## The resolution order in the specification's words, and sample inputs -/

/-- The specification's address resolution order: the four candidates in order, each present only
when usable (override non-empty; hostname looked up, non-empty and not a loopback alias; probe IP
non-empty; the literal `"localhost"`). -/
def ResolveAddress.candidates (override : String) (hostname : Except String String)
    (probeIP : String) : List (Option String) :=
  [ (if override ≠ "" then some override else none),
    (match hostname with
      | .ok h => if h ≠ "" ∧ h ≠ "localhost" ∧ h ≠ "127.0.0.1" then some h else none
      | .error _ => none),
    (if probeIP ≠ "" then some probeIP else none),
    some "localhost" ]

/-- The first usable candidate of a list. -/
def ResolveAddress.firstUsable : List (Option String) → Option String
  | [] => none
  | some a :: _ => some a
  | none :: rest => ResolveAddress.firstUsable rest

/-- A metadata bag with every field empty. -/
def sampleMeta : ConsulMetaConfig :=
  ⟨"", "", "", "", "", "", "", "", "", "", "", "", "", "", "", "", "", "", ""⟩

/-- A configuration for service `"svc"` speaking `http`, with the given enabled flag, public
address, port and health-check address, and a Consul agent at `"127.0.0.1:8500"`. -/
def sampleConfig (enabled : Bool) (address : String) (port : Int) (healthCheckAddress : String) :
    Config :=
  { App := { Env := "development", Port := "8080", Name := "svc" },
    Consul := { Address := "127.0.0.1:8500", Token := "", Enabled := enabled, Meta := sampleMeta },
    Service := { Address := address, Port := port, Scheme := "http",
                 HealthCheckAddress := healthCheckAddress } }

/-- A client library whose `NewClient` succeeds. -/
def sampleApi : Api :=
  { DefaultConfig := { Address := "127.0.0.1:8500", Token := "" }, NewClient := fun _ => none }

/-- A host with no override set, hostname `"web-1"` and outbound IP `"192.168.1.7"`. -/
def sampleWorld (env : List (String × String)) : World :=
  { env := env, hostname := .ok "web-1", outbound := .ok "192.168.1.7" }

/-- A working directory without `.env` files. -/
def sampleFiles : DotEnvFiles := { read := fun _ => .error "no such file or directory" }

/-! ## Theorems -/

/-! ### Decimal rendering and parsing -/

theorem digitChar_isDigit (d : Nat) : isDigit (digitChar d) = true := by
  have h : d % 10 < 10 := Nat.mod_lt _ (by decide)
  unfold digitChar
  generalize d % 10 = k at h
  interval_cases k <;> decide

theorem digitChar_val (d : Nat) (h : d < 10) : (digitChar d).toNat - 48 = d := by
  unfold digitChar
  interval_cases d <;> decide

theorem formatBits_acc (fuel : Nat) : ∀ (n : Nat) (acc : List Char),
    formatBits fuel n acc = formatBits fuel n [] ++ acc := by
  induction fuel with
  | zero => intro n acc; simp [formatBits]
  | succ fuel ih =>
    intro n acc
    unfold formatBits
    split
    · simp
    · rw [ih (n / 10) (digitChar (n % 10) :: acc), ih (n / 10) [digitChar (n % 10)]]
      simp

theorem formatBits_isDigit (fuel : Nat) : ∀ (n : Nat), ∀ c ∈ formatBits fuel n [],
    isDigit c = true := by
  induction fuel with
  | zero => intro n c hc; simp [formatBits] at hc
  | succ fuel ih =>
    intro n c hc
    unfold formatBits at hc
    split at hc
    · simp at hc; subst hc; exact digitChar_isDigit n
    · rw [formatBits_acc] at hc
      simp at hc
      rcases hc with hc | hc
      · exact ih _ c hc
      · subst hc; exact digitChar_isDigit _

theorem parseDigits_append (l1 : List Char) : ∀ (l2 : List Char) (acc : Nat),
    parseDigits (l1 ++ l2) acc = (parseDigits l1 acc).bind (parseDigits l2) := by
  induction l1 with
  | nil => intro l2 acc; simp [parseDigits]
  | cons c cs ih =>
    intro l2 acc
    simp only [List.cons_append, parseDigits]
    split
    · exact ih l2 _
    · rfl

theorem parseDigits_formatBits (fuel : Nat) : ∀ (n : Nat), n < fuel →
    parseDigits (formatBits fuel n []) 0 = some n := by
  induction fuel with
  | zero => intro n h; omega
  | succ fuel ih =>
    intro n h
    unfold formatBits
    split
    · rename_i h10
      simp [parseDigits, digitChar_isDigit, digitChar_val n h10]
    · rename_i h10
      have hlt : n / 10 < fuel := by omega
      rw [formatBits_acc, parseDigits_append, ih _ hlt]
      simp [parseDigits, digitChar_isDigit, digitChar_val (n % 10) (Nat.mod_lt _ (by decide))]
      omega

theorem parseDigits_formatUint (n : Nat) : parseDigits (formatUint n) 0 = some n :=
  parseDigits_formatBits (n + 1) n (Nat.lt_succ_self n)

theorem formatUint_injective {m n : Nat} (h : formatUint m = formatUint n) : m = n := by
  have h1 := parseDigits_formatUint m
  rw [h, parseDigits_formatUint] at h1
  exact (Option.some.inj h1).symm

theorem formatUint_ne_nil (n : Nat) : formatUint n ≠ [] := by
  unfold formatUint formatBits
  split <;> simp
  rw [formatBits_acc]
  simp

theorem dash_not_mem_formatUint (n : Nat) : '-' ∉ formatUint n := by
  intro h
  have := formatBits_isDigit _ _ _ h
  revert this
  decide

/-! ### Configuration validation and identity -/


/-- C1: `ValidateConfig cfg` returns no error exactly when Consul integration is enabled, the
Consul address and the service address are non-empty, the port is positive and the scheme is
`"http"` or `"https"`; in every other case it returns an error. -/
theorem validateConfig_ok_iff (cfg : Config) :
    (ValidateConfig cfg = none ↔
      (cfg.Consul.Enabled = true ∧ cfg.Consul.Address ≠ "" ∧ cfg.Service.Address ≠ "" ∧
        0 < cfg.Service.Port ∧ (cfg.Service.Scheme = "http" ∨ cfg.Service.Scheme = "https"))) ∧
    (¬ (cfg.Consul.Enabled = true ∧ cfg.Consul.Address ≠ "" ∧ cfg.Service.Address ≠ "" ∧
        0 < cfg.Service.Port ∧ (cfg.Service.Scheme = "http" ∨ cfg.Service.Scheme = "https")) →
      ∃ msg, ValidateConfig cfg = some msg) := by
  unfold ValidateConfig Config.IsConsulEnabled
  by_cases h1 : cfg.Consul.Enabled = true
  · by_cases h2 : cfg.Consul.Address = ""
    · simp [h1, h2]
    · by_cases h3 : cfg.Service.Address = ""
      · simp [h1, h2, h3]
      · by_cases h4 : cfg.Service.Port ≤ 0
        · simp [h1, h2, h3, h4]
        · by_cases h5 : cfg.Service.Scheme = "http"
          · simp [h1, h2, h3, h4, h5]
            omega
          · by_cases h6 : cfg.Service.Scheme = "https"
            · simp [h1, h2, h3, h4, h6]
              omega
            · simp [h1, h2, h3, h4, h5, h6]
  · simp [h1]

theorem sprintf_id (a b : String) (p : Int) :
    Sprintf "%s-%s-%d" [FmtArg.str a, FmtArg.str b, FmtArg.int p]
      = a ++ "-" ++ b ++ "-" ++ Itoa p := by
  apply String.ext
  show sprintfAux ['%', 's', '-', '%', 's', '-', '%', 'd'] _ = _
  simp [sprintfAux, Itoa, String.data_append]

/-- C2: the identity is exactly `name ++ "-" ++ address ++ "-" ++ decimal port`; it is determined
by these three values alone; name `"svc"`, address `"10.0.0.5"`, port `9090` give
`"svc-10.0.0.5-9090"`; and the rendered port is a minus sign when the port is negative followed
by a non-empty run of decimal digits that read back as the port's absolute value. -/
theorem generateServiceID_format (cfg : Config) :
    generateServiceID cfg
        = cfg.App.Name ++ "-" ++ cfg.Service.Address ++ "-" ++ Itoa cfg.Service.Port ∧
    (∀ cfg2 : Config, cfg2.App.Name = cfg.App.Name →
        cfg2.Service.Address = cfg.Service.Address → cfg2.Service.Port = cfg.Service.Port →
        generateServiceID cfg2 = generateServiceID cfg) ∧
    (cfg.App.Name = "svc" → cfg.Service.Address = "10.0.0.5" → cfg.Service.Port = 9090 →
        generateServiceID cfg = "svc-10.0.0.5-9090") ∧
    (∃ ds, (Itoa cfg.Service.Port).data = (if cfg.Service.Port < 0 then ['-'] else []) ++ ds ∧
        ds ≠ [] ∧ parseDigits ds 0 = some cfg.Service.Port.natAbs) := by
  refine ⟨sprintf_id _ _ _, ?_, ?_, ?_⟩
  rotate_right
  · refine ⟨formatUint cfg.Service.Port.natAbs, ?_, formatUint_ne_nil _,
      parseDigits_formatUint _⟩
    unfold Itoa formatInt
    split <;> simp
  · intro cfg2 h1 h2 h3
    simp only [generateServiceID, h1, h2, h3]
  · intro h1 h2 h3
    simp only [generateServiceID, h1, h2, h3]
    decide

theorem generateServiceID_data (cfg : Config) :
    (generateServiceID cfg).data =
      cfg.App.Name.data ++ '-' :: (cfg.Service.Address.data ++ '-' :: formatInt cfg.Service.Port) := by
  rw [generateServiceID, sprintf_id]
  simp [Itoa, String.data_append]

theorem split_last_sep {α : Type} (x : α) : ∀ (a1 a2 d1 d2 : List α), x ∉ d1 → x ∉ d2 →
    a1 ++ x :: d1 = a2 ++ x :: d2 → a1 = a2 ∧ d1 = d2 := by
  intro a1
  induction a1 with
  | nil =>
    intro a2 d1 d2 h1 h2 h
    cases a2 with
    | nil => simpa using h
    | cons y ys =>
      simp at h
      exact absurd (h.2 ▸ (by simp : x ∈ ys ++ x :: d2)) h1
  | cons z zs ih =>
    intro a2 d1 d2 h1 h2 h
    cases a2 with
    | nil =>
      simp at h
      exact absurd (h.2 ▸ (by simp : x ∈ zs ++ x :: d1)) h2
    | cons y ys =>
      simp only [List.cons_append, List.cons.injEq] at h
      obtain ⟨rfl, h⟩ := h
      obtain ⟨rfl, rfl⟩ := ih ys d1 d2 h1 h2 h
      exact ⟨rfl, rfl⟩

theorem generateServiceID_eq_same_sign (c1 c2 : Config) (hname : c1.App.Name = c2.App.Name)
    (hsign : (0 ≤ c1.Service.Port ∧ 0 ≤ c2.Service.Port) ∨
      (c1.Service.Port < 0 ∧ c2.Service.Port < 0))
    (h : generateServiceID c1 = generateServiceID c2) :
    c1.Service.Address = c2.Service.Address ∧ c1.Service.Port = c2.Service.Port := by
  have hd := congrArg String.data h
  rw [generateServiceID_data, generateServiceID_data, hname] at hd
  have hd := List.cons.inj (List.append_cancel_left hd)
  have hd := hd.2
  rcases hsign with ⟨h1, h2⟩ | ⟨h1, h2⟩
  · simp only [formatInt, not_lt.mpr h1, not_lt.mpr h2, if_false] at hd
    obtain ⟨ha, hp⟩ := split_last_sep '-' _ _ _ _ (dash_not_mem_formatUint _)
      (dash_not_mem_formatUint _) hd
    have hp := formatUint_injective hp
    exact ⟨String.ext ha, by omega⟩
  · simp only [formatInt, h1, h2, if_true] at hd
    have hd2 : (c1.Service.Address.data ++ ['-']) ++ '-' :: formatUint c1.Service.Port.natAbs
        = (c2.Service.Address.data ++ ['-']) ++ '-' :: formatUint c2.Service.Port.natAbs := by
      simpa using hd
    obtain ⟨ha, hp⟩ := split_last_sep '-' _ _ _ _ (dash_not_mem_formatUint _)
      (dash_not_mem_formatUint _) hd2
    have hp := formatUint_injective hp
    exact ⟨String.ext (List.append_cancel_right ha), by omega⟩

/-- C3 (as stated, refuted): with the same name, address `"a-"` with port `5` and address `"a"`
with port `-5` differ in address and in port and yet get the same identity `"svc-a--5"`. -/
theorem generateServiceID_collision :
    ¬ (∀ c1 c2 : Config, c1.App.Name = c2.App.Name →
        (c1.Service.Address ≠ c2.Service.Address ∨ c1.Service.Port ≠ c2.Service.Port) →
        generateServiceID c1 ≠ generateServiceID c2) := by
  intro h
  let m : ConsulMetaConfig :=
    ⟨"", "", "", "", "", "", "", "", "", "", "", "", "", "", "", "", "", "", ""⟩
  exact h
    { App := { Env := "", Port := "", Name := "svc" },
      Consul := { Address := "", Token := "", Enabled := true, Meta := m },
      Service := { Address := "a-", Port := 5, Scheme := "http", HealthCheckAddress := "" } }
    { App := { Env := "", Port := "", Name := "svc" },
      Consul := { Address := "", Token := "", Enabled := true, Meta := m },
      Service := { Address := "a", Port := -5, Scheme := "http", HealthCheckAddress := "" } }
    rfl (Or.inl (by decide)) (by decide)

/-- C3 (amended): for a fixed name, two (address, port) pairs whose ports have the same sign
(both non-negative, or both negative) and that differ in the address or in the port get distinct
identities. -/
theorem generateServiceID_injective_same_sign (c1 c2 : Config)
    (hname : c1.App.Name = c2.App.Name)
    (hsign : (0 ≤ c1.Service.Port ∧ 0 ≤ c2.Service.Port) ∨
      (c1.Service.Port < 0 ∧ c2.Service.Port < 0))
    (hdiff : c1.Service.Address ≠ c2.Service.Address ∨ c1.Service.Port ≠ c2.Service.Port) :
    generateServiceID c1 ≠ generateServiceID c2 := by
  intro h
  obtain ⟨ha, hp⟩ := generateServiceID_eq_same_sign c1 c2 hname hsign h
  rcases hdiff with hd | hd
  · exact hd ha
  · exact hd hp

/-- C3 (amended), at a concrete input: ports `9090` and `9091` on the same address. -/
theorem generateServiceID_injective_same_sign_witness :
    generateServiceID (sampleConfig true "10.0.0.5" 9090 "")
      ≠ generateServiceID (sampleConfig true "10.0.0.5" 9091 "") :=
  generateServiceID_injective_same_sign _ _ rfl (Or.inl ⟨by decide, by decide⟩)
    (Or.inr (by decide))

/-! ### Address and port resolution -/

/-- C4: `getServiceAddress` returns the first usable candidate of the resolution order
(override, hostname unless empty or a loopback alias, outbound-probe IP, `"localhost"`); in
particular a non-empty override is returned exactly, whatever the hostname and the probe give. -/
theorem getServiceAddress_first_usable (w : World) :
    ResolveAddress.firstUsable
        (ResolveAddress.candidates (w.Getenv "SERVICE_ADDRESS") w.hostname (getOutboundIP w))
      = some (getServiceAddress w) ∧
    (w.Getenv "SERVICE_ADDRESS" ≠ "" → getServiceAddress w = w.Getenv "SERVICE_ADDRESS") ∧
    (w.Getenv "SERVICE_ADDRESS" = "" →
      (∀ h, w.hostname = .ok h → h ≠ "" → h ≠ "localhost" → h ≠ "127.0.0.1" →
        getServiceAddress w = h) ∧
      ((∀ h, w.hostname = .ok h → h = "" ∨ h = "localhost" ∨ h = "127.0.0.1") →
        (getOutboundIP w ≠ "" → getServiceAddress w = getOutboundIP w) ∧
        (getOutboundIP w = "" → getServiceAddress w = "localhost"))) := by
  unfold getServiceAddress getServiceAddress.fromProbe ResolveAddress.candidates
  by_cases h0 : w.Getenv "SERVICE_ADDRESS" = ""
  · cases hh : w.hostname with
    | error e =>
      by_cases hp : getOutboundIP w = "" <;> simp [h0, hp, ResolveAddress.firstUsable]
    | ok h =>
      by_cases h1 : h = ""
      · by_cases hp : getOutboundIP w = "" <;> simp [h0, h1, hp, ResolveAddress.firstUsable]
      · by_cases h2 : h = "localhost"
        · by_cases hp : getOutboundIP w = "" <;> simp [h0, h2, hp, ResolveAddress.firstUsable]
        · by_cases h3 : h = "127.0.0.1"
          · by_cases hp : getOutboundIP w = "" <;> simp [h0, h3, hp, ResolveAddress.firstUsable]
          · simp [h0, h1, h2, h3, ResolveAddress.firstUsable]
  · simp [h0, ResolveAddress.firstUsable]

/-- C5: `getServicePort` returns the integer parsed from `SERVICE_PORT` when that is non-empty and
parses; otherwise the integer parsed from `appPort` when that parses; otherwise `8080`. A value
that does not parse falls through to the next tier, so one of the three always applies. -/
theorem getServicePort_tiers (w : World) (appPort : String) :
    (∀ p, w.Getenv "SERVICE_PORT" ≠ "" → Atoi (w.Getenv "SERVICE_PORT") = some p →
      getServicePort w appPort = p) ∧
    (∀ p, (w.Getenv "SERVICE_PORT" = "" ∨ Atoi (w.Getenv "SERVICE_PORT") = none) →
      Atoi appPort = some p → getServicePort w appPort = p) ∧
    ((w.Getenv "SERVICE_PORT" = "" ∨ Atoi (w.Getenv "SERVICE_PORT") = none) →
      Atoi appPort = none → getServicePort w appPort = 8080) ∧
    ((w.Getenv "SERVICE_PORT" ≠ "" ∧
        Atoi (w.Getenv "SERVICE_PORT") = some (getServicePort w appPort)) ∨
      Atoi appPort = some (getServicePort w appPort) ∨
      getServicePort w appPort = 8080) := by
  unfold getServicePort getServicePort.fromAppPort
  by_cases h0 : w.Getenv "SERVICE_PORT" = ""
  · cases ha : Atoi appPort <;> simp [h0, ha]
  · cases hs : Atoi (w.Getenv "SERVICE_PORT") with
    | some p => simp [h0, hs]
    | none => cases ha : Atoi appPort <;> simp [h0, hs, ha]

/-! ### The registration record -/

theorem newConsulRegistry_ok {api : Api} {cfg : Config} {r : ConsulRegistry}
    (hr : NewConsulRegistry api cfg = .ok r) :
    r.config = cfg ∧ r.serviceID = generateServiceID cfg := by
  unfold NewConsulRegistry at hr
  simp only at hr
  split at hr
  · cases hr
  · cases hr
    exact ⟨rfl, rfl⟩

/-- C6: for a registrar built by `NewConsulRegistry` from `cfg`, the record that `Register` builds
and submits has `ID = generateServiceID cfg`, the configured address and port, and a health check
with interval `"10s"`, timeout `"5s"`, deregister-after-critical `"60s"` and URL
`scheme://HealthCheckAddress:port/health` when a health-check address is configured, else
`scheme://Address:port/health`, which is `GetHealthCheckURL`. -/
theorem register_record (cfg : Config) (api : Api) (r : ConsulRegistry) (ctx : Context)
    (agent : Agent) (hr : NewConsulRegistry api cfg = .ok r) :
    (r.Register ctx none agent).1 = none ∧
    (r.Register ctx none agent).2.services.head? = some (ConsulRegistry.Register.service r) ∧
    (ConsulRegistry.Register.service r).ID = generateServiceID cfg ∧
    (ConsulRegistry.Register.service r).Address = cfg.Service.Address ∧
    (ConsulRegistry.Register.service r).Port = cfg.Service.Port ∧
    (ConsulRegistry.Register.service r).Check.Interval = "10s" ∧
    (ConsulRegistry.Register.service r).Check.Timeout = "5s" ∧
    (ConsulRegistry.Register.service r).Check.DeregisterCriticalServiceAfter = "60s" ∧
    (cfg.Service.HealthCheckAddress ≠ "" →
      (ConsulRegistry.Register.service r).Check.HTTP =
        cfg.Service.Scheme ++ "://" ++ cfg.Service.HealthCheckAddress ++ ":"
          ++ Itoa cfg.Service.Port ++ "/health") ∧
    (cfg.Service.HealthCheckAddress = "" →
      (ConsulRegistry.Register.service r).Check.HTTP =
        cfg.Service.Scheme ++ "://" ++ cfg.Service.Address ++ ":"
          ++ Itoa cfg.Service.Port ++ "/health" ∧
      (ConsulRegistry.Register.service r).Check.HTTP = cfg.GetHealthCheckURL) := by
  obtain ⟨hc, hid⟩ := newConsulRegistry_ok hr
  refine ⟨?_, ?_, ?_, ?_, ?_, rfl, rfl, rfl, ?_, ?_⟩
  · simp [ConsulRegistry.Register, Agent.ServiceRegister]
  · simp [ConsulRegistry.Register, Agent.ServiceRegister]
  · simp [ConsulRegistry.Register.service, hid]
  · simp [ConsulRegistry.Register.service, hc]
  · simp [ConsulRegistry.Register.service, hc]
  · intro h
    simp [ConsulRegistry.Register.service, hc, Config.GetConsulHealthCheckURL, h]
  · intro h
    simp [ConsulRegistry.Register.service, hc, Config.GetConsulHealthCheckURL, h,
      Config.GetHealthCheckURL, Config.GetServiceURL]

/-- C6, at a concrete input: the sample configuration with health-check address `"app"`. -/
theorem register_record_witness :
    NewConsulRegistry sampleApi (sampleConfig true "10.0.0.5" 9090 "app") =
      .ok { client := { config := { Address := "127.0.0.1:8500", Token := "" } },
            config := sampleConfig true "10.0.0.5" 9090 "app",
            serviceID := "svc-10.0.0.5-9090" } ∧
    (ConsulRegistry.Register.service
      { client := { config := { Address := "127.0.0.1:8500", Token := "" } },
        config := sampleConfig true "10.0.0.5" 9090 "app",
        serviceID := "svc-10.0.0.5-9090" }).Check.HTTP = "http://app:9090/health" := by
  have hr : NewConsulRegistry sampleApi (sampleConfig true "10.0.0.5" 9090 "app") =
      .ok { client := { config := { Address := "127.0.0.1:8500", Token := "" } },
            config := sampleConfig true "10.0.0.5" 9090 "app",
            serviceID := "svc-10.0.0.5-9090" } := by
    simp only [NewConsulRegistry, sampleApi]
    exact congrArg Except.ok (by decide)
  have h := register_record (sampleConfig true "10.0.0.5" 9090 "app") sampleApi _
    (WithTimeout (10 * Second)) { services := [] } hr
  refine ⟨hr, ?_⟩
  rw [h.2.2.2.2.2.2.2.2.1 (by decide)]
  decide

/-! ### The health endpoint -/

/-- C7: the body built by `HealthHandler` has a `"consul"` entry in its dependencies exactly when
`cfg.Consul.Enabled` is true; with integration disabled the response is status 200 with top-level
status `"healthy"` and an empty dependencies map. -/
theorem healthHandler_consul_entry_iff_enabled (cfg : Config) (now : Int) (api : Api)
    (leader : Except String String) :
    ((∃ v, ("consul", v) ∈ (HealthHandler cfg now api leader).body.dependencies) ↔
      cfg.Consul.Enabled = true) ∧
    (cfg.Consul.Enabled = false →
      (HealthHandler cfg now api leader).code = 200 ∧
      (HealthHandler cfg now api leader).body.status = "healthy" ∧
      (HealthHandler cfg now api leader).body.dependencies = []) := by
  unfold HealthHandler Config.IsConsulEnabled
  cases he : cfg.Consul.Enabled with
  | false => simp [StatusOK]
  | true =>
    cases hr : NewConsulRegistry api cfg with
    | error e => simp
    | ok r => simp

/-- C8: with integration enabled, whatever the backend does, `HealthHandler` answers 200 with
top-level status `"healthy"`; the `"consul"` entry has status `"unhealthy"` exactly when client
construction failed or the leader probe returned an error, and `"healthy"` otherwise; `IsHealthy`
turns every probe error into `false`. -/
theorem healthHandler_enabled (cfg : Config) (now : Int) (api : Api)
    (leader : Except String String) (he : cfg.Consul.Enabled = true) :
    (HealthHandler cfg now api leader).code = 200 ∧
    (HealthHandler cfg now api leader).body.status = "healthy" ∧
    (∃ entry, (HealthHandler cfg now api leader).body.dependencies = [("consul", entry)] ∧
      (entry.lookup "status" = some "unhealthy" ↔
        ((∃ e, NewConsulRegistry api cfg = .error e) ∨ (∃ e, leader = .error e))) ∧
      (entry.lookup "status" = some "healthy" ↔
        ¬ ((∃ e, NewConsulRegistry api cfg = .error e) ∨ (∃ e, leader = .error e)))) ∧
    (∀ r : ConsulRegistry, r.IsHealthy leader = false ↔ ∃ e, leader = .error e) := by
  refine ⟨?_, ?_, ?_, ?_⟩
  · simp [HealthHandler, StatusOK]
  · unfold HealthHandler Config.IsConsulEnabled
    cases hr : NewConsulRegistry api cfg <;> simp [he]
  · unfold HealthHandler Config.IsConsulEnabled
    cases hr : NewConsulRegistry api cfg with
    | error e =>
      refine ⟨[("status", "unhealthy"), ("error", e)], by simp [he], ?_, ?_⟩
      · simp [List.lookup]
      · simp [List.lookup]
    | ok r =>
      cases hl : leader with
      | error e =>
        refine ⟨[("status", "unhealthy"), ("address", cfg.Consul.Address)],
          by simp [he, ConsulRegistry.IsHealthy], ?_, ?_⟩
        · simp [List.lookup]
        · simp [List.lookup]
      | ok v =>
        refine ⟨[("status", "healthy"), ("address", cfg.Consul.Address)],
          by simp [he, ConsulRegistry.IsHealthy], ?_, ?_⟩
        · simp [List.lookup]
        · simp [List.lookup]
  · intro r
    cases leader <;> simp [ConsulRegistry.IsHealthy]

/-- C8, at a concrete input: integration enabled and a leader probe that fails. -/
theorem healthHandler_enabled_witness :
    (HealthHandler (sampleConfig true "10.0.0.5" 9090 "") 1700000000 sampleApi
      (.error "connection refused")).code = 200 ∧
    (HealthHandler (sampleConfig true "10.0.0.5" 9090 "") 1700000000 sampleApi
      (.error "connection refused")).body.dependencies =
      [("consul", [("status", "unhealthy"), ("address", "127.0.0.1:8500")])] :=
  ⟨(healthHandler_enabled (sampleConfig true "10.0.0.5" 9090 "") 1700000000 sampleApi
      (.error "connection refused") rfl).1, by decide⟩

/-! ### The process lifecycle -/

theorem initConsul_cases (cfg : Config) (o : Outcomes) (agent : Agent) :
    ((main.initConsul cfg o agent).consulRegistry = none ∧
      (main.initConsul cfg o agent).agent = agent ∧
      ∀ e ∈ (main.initConsul cfg o agent).trace, e.isRegister = false ∧ e.isDeregister = false) ∨
    (cfg.Consul.Enabled = true ∧
      ∃ r err, (main.initConsul cfg o agent).consulRegistry = some r ∧
        (main.initConsul cfg o agent).trace =
          [Event.ValidateConfig none, Event.NewConsulRegistry none,
            Event.Register r.serviceID err] ∧
        err = (r.Register (WithTimeout (10 * Second)) o.registerFail agent).1) := by
  unfold main.initConsul Config.IsConsulEnabled
  cases he : cfg.Consul.Enabled with
  | false => left; simp
  | true =>
    cases hv : ValidateConfig cfg with
    | some err => left; simp [Event.isRegister, Event.isDeregister]
    | none =>
      cases hr : NewConsulRegistry o.api cfg with
      | error err => left; simp [Event.isRegister, Event.isDeregister]
      | ok r => right; exact ⟨rfl, r, _, rfl, rfl, rfl⟩

theorem main_trace (cfg : Config) (o : Outcomes) (agent : Agent) :
    (main cfg o agent).consulRegistry = (main.initConsul cfg o agent).consulRegistry ∧
    ∃ tail, (main cfg o agent).trace = (main.initConsul cfg o agent).trace ++ tail ∧
      (∀ e ∈ tail, e.isRegister = false) ∧
      ((∃ e ∈ tail, e.isDeregister = true) ↔
        ((main.initConsul cfg o agent).consulRegistry.isSome = true ∧ o.listenFail = none ∧
          o.signal = true)) := by
  unfold main main.shutdown
  cases hl : o.listenFail with
  | some err =>
    refine ⟨rfl, [Event.ListenAndServe (some err), Event.Exit 1], rfl, ?_, ?_⟩ <;>
      simp [Event.isRegister, Event.isDeregister]
  | none =>
    cases hs : o.signal with
    | false =>
      refine ⟨rfl, [Event.ListenAndServe none], by simp, ?_, ?_⟩ <;>
        simp [Event.isRegister, Event.isDeregister]
    | true =>
      cases hc : (main.initConsul cfg o agent).consulRegistry with
      | none =>
        cases hd : o.shutdownFail with
        | some err =>
          refine ⟨by simp [hc], [Event.ListenAndServe none, Event.Signal,
            Event.Shutdown (some err), Event.Exit 1], by simp [hc], ?_, ?_⟩ <;>
            simp [Event.isRegister, Event.isDeregister]
        | none =>
          refine ⟨by simp [hc], [Event.ListenAndServe none, Event.Signal,
            Event.Shutdown none, Event.Exit 0], by simp [hc], ?_, ?_⟩ <;>
            simp [Event.isRegister, Event.isDeregister]
      | some r =>
        cases hd : o.shutdownFail with
        | some err =>
          refine ⟨by simp [hc], [Event.ListenAndServe none, Event.Signal,
            Event.Deregister r.serviceID
              (r.Deregister (WithTimeout (5 * Second)) o.deregisterFail
                (main.initConsul cfg o agent).agent).1,
            Event.Shutdown (some err), Event.Exit 1], by simp [hc], ?_, ?_⟩ <;>
            simp [Event.isRegister, Event.isDeregister]
        | none =>
          refine ⟨by simp [hc], [Event.ListenAndServe none, Event.Signal,
            Event.Deregister r.serviceID
              (r.Deregister (WithTimeout (5 * Second)) o.deregisterFail
                (main.initConsul cfg o agent).agent).1,
            Event.Shutdown none, Event.Exit 0], by simp [hc], ?_, ?_⟩ <;>
            simp [Event.isRegister, Event.isDeregister]

/-- C9: with `cfg.Consul.Enabled = false`, whatever the other steps do, the run of `main` calls
neither `Register` nor `Deregister`, the variable `consulRegistry` stays `nil`, and the agent is
left as it was. -/
theorem main_disabled_never_registers (cfg : Config) (o : Outcomes) (agent : Agent)
    (he : cfg.Consul.Enabled = false) :
    (main cfg o agent).consulRegistry = none ∧
    (∀ e ∈ (main cfg o agent).trace, e.isRegister = false ∧ e.isDeregister = false) ∧
    (main.initConsul cfg o agent).trace = [] := by
  have hi : main.initConsul cfg o agent = { consulRegistry := none, agent := agent, trace := [] } := by
    simp [main.initConsul, Config.IsConsulEnabled, he]
  obtain ⟨hc, tail, ht, hreg, hdereg⟩ := main_trace cfg o agent
  rw [hi] at hc ht hdereg
  refine ⟨hc, ?_, by rw [hi]⟩
  intro e hmem
  rw [ht] at hmem
  simp only [List.nil_append] at hmem
  refine ⟨hreg e hmem, ?_⟩
  cases hd : e.isDeregister with
  | false => rfl
  | true =>
    have := hdereg.mp ⟨e, hmem, hd⟩
    simp at this

/-- C9, at a concrete input: integration disabled, a signal arrives, everything else succeeds. -/
theorem main_disabled_never_registers_witness :
    (main (sampleConfig false "10.0.0.5" 9090 "")
      { api := sampleApi, registerFail := none, listenFail := none, signal := true,
        deregisterFail := none, shutdownFail := none } { services := [] }).consulRegistry = none ∧
    (main (sampleConfig false "10.0.0.5" 9090 "")
      { api := sampleApi, registerFail := none, listenFail := none, signal := true,
        deregisterFail := none, shutdownFail := none } { services := [] }).trace =
      [Event.ListenAndServe none, Event.Signal, Event.Shutdown none, Event.Exit 0] :=
  ⟨(main_disabled_never_registers (sampleConfig false "10.0.0.5" 9090 "") _ _ rfl).1, by decide⟩

/-- C10 (as stated, refuted): with a valid, enabled configuration, a `Register` call that returns
an error and a signal, the run has no successful `Register` and still calls `Deregister`. -/
theorem main_deregisters_after_failed_register :
    ¬ (∀ (cfg : Config) (o : Outcomes) (agent : Agent),
        (∀ e ∈ (main cfg o agent).trace, e.isRegisterOk = false) →
        ∀ e ∈ (main cfg o agent).trace, e.isDeregister = false) := by
  intro h
  have h1 := h (sampleConfig true "10.0.0.5" 9090 "")
    { api := sampleApi, registerFail := some "connection refused", listenFail := none,
      signal := true, deregisterFail := none, shutdownFail := none } { services := [] }
    (by decide)
  revert h1
  decide

/-- C10 (amended): `Deregister` is called exactly when the registrar was constructed, the listener
did not fail and the signal arrived; the registrar is constructed exactly when `Register` was
called, whether it returned an error or not; so a run in which `Register` was never attempted
makes no `Deregister` call. -/
theorem main_deregister_iff_registrar (cfg : Config) (o : Outcomes) (agent : Agent) :
    ((∃ e ∈ (main cfg o agent).trace, e.isDeregister = true) ↔
      ((main cfg o agent).consulRegistry.isSome = true ∧ o.listenFail = none ∧
        o.signal = true)) ∧
    ((main cfg o agent).consulRegistry.isSome = true ↔
      ∃ e ∈ (main cfg o agent).trace, e.isRegister = true) ∧
    ((∀ e ∈ (main cfg o agent).trace, e.isRegister = false) →
      ∀ e ∈ (main cfg o agent).trace, e.isDeregister = false) := by
  obtain ⟨hc, tail, ht, hreg, hdereg⟩ := main_trace cfg o agent
  have key1 : (∃ e ∈ (main cfg o agent).trace, e.isDeregister = true) ↔
      ((main cfg o agent).consulRegistry.isSome = true ∧ o.listenFail = none ∧
        o.signal = true) := by
    rw [hc, ← hdereg, ht]
    constructor
    · rintro ⟨e, hmem, hd⟩
      rcases List.mem_append.mp hmem with hmem | hmem
      · rcases initConsul_cases cfg o agent with ⟨_, _, hno⟩ | ⟨_, r, err, _, htr, _⟩
        · rw [(hno e hmem).2] at hd
          cases hd
        · rw [htr] at hmem
          simp at hmem
          rcases hmem with rfl | rfl | rfl <;> simp [Event.isDeregister] at hd
      · exact ⟨e, hmem, hd⟩
    · rintro ⟨e, hmem, hd⟩
      exact ⟨e, List.mem_append.mpr (Or.inr hmem), hd⟩
  have key2 : (main cfg o agent).consulRegistry.isSome = true ↔
      ∃ e ∈ (main cfg o agent).trace, e.isRegister = true := by
    rw [hc, ht]
    rcases initConsul_cases cfg o agent with ⟨hnone, _, hno⟩ | ⟨_, r, err, hsome, htr, _⟩
    · rw [hnone]
      simp only [Option.isSome_none, Bool.false_eq_true, false_iff, not_exists, not_and]
      intro e hmem
      rcases List.mem_append.mp hmem with hmem | hmem
      · simp [(hno e hmem).1]
      · simp [hreg e hmem]
    · rw [hsome, htr]
      simp only [Option.isSome_some, true_iff]
      exact ⟨Event.Register r.serviceID err, by simp, rfl⟩
  refine ⟨key1, key2, ?_⟩
  intro hnoreg e hmem
  cases hd : e.isDeregister with
  | false => rfl
  | true =>
    have h1 := (key1.mp ⟨e, hmem, hd⟩).1
    obtain ⟨e2, hm2, hr2⟩ := key2.mp h1
    rw [hnoreg e2 hm2] at hr2
    cases hr2

/-- C11: once the configuration is loaded, the Consul block of `main` ends in one of five ways
(integration disabled, `ValidateConfig` error, `NewConsulRegistry` error, `Register` error,
`Register` success), none of which ends the process, and in each the listener is started next;
and when the signal arrives the listener drain runs whatever `Deregister` returned. -/
theorem main_starts_listener (cfg : Config) (o : Outcomes) (agent : Agent) :
    ((main.initConsul cfg o agent).trace = [] ∨
      (∃ err, (main.initConsul cfg o agent).trace = [Event.ValidateConfig (some err)]) ∨
      (∃ err, (main.initConsul cfg o agent).trace =
        [Event.ValidateConfig none, Event.NewConsulRegistry (some err)]) ∨
      (∃ id err, (main.initConsul cfg o agent).trace =
        [Event.ValidateConfig none, Event.NewConsulRegistry none,
          Event.Register id (some err)]) ∨
      (∃ id, (main.initConsul cfg o agent).trace =
        [Event.ValidateConfig none, Event.NewConsulRegistry none, Event.Register id none])) ∧
    (∀ e ∈ (main.initConsul cfg o agent).trace, e.isExit = false) ∧
    (∃ rest, (main cfg o agent).trace =
      (main.initConsul cfg o agent).trace ++ Event.ListenAndServe o.listenFail :: rest) ∧
    (o.listenFail = none → o.signal = true →
      ∃ before, (main cfg o agent).trace =
        before ++ [Event.Shutdown o.shutdownFail, Event.Exit (if o.shutdownFail = none then 0 else 1)]
        ∧ ∀ e ∈ before, e.isExit = false) := by
  have hfive : ((main.initConsul cfg o agent).trace = [] ∨
      (∃ err, (main.initConsul cfg o agent).trace = [Event.ValidateConfig (some err)]) ∨
      (∃ err, (main.initConsul cfg o agent).trace =
        [Event.ValidateConfig none, Event.NewConsulRegistry (some err)]) ∨
      (∃ id err, (main.initConsul cfg o agent).trace =
        [Event.ValidateConfig none, Event.NewConsulRegistry none,
          Event.Register id (some err)]) ∨
      (∃ id, (main.initConsul cfg o agent).trace =
        [Event.ValidateConfig none, Event.NewConsulRegistry none, Event.Register id none])) := by
    unfold main.initConsul Config.IsConsulEnabled
    cases he : cfg.Consul.Enabled with
    | false => left; simp
    | true =>
      cases hv : ValidateConfig cfg with
      | some err => right; left; exact ⟨err, by simp⟩
      | none =>
        cases hr : NewConsulRegistry o.api cfg with
        | error err => right; right; left; exact ⟨err, by simp⟩
        | ok r =>
          cases hreg : (r.Register (WithTimeout (10 * Second)) o.registerFail agent).1 with
          | some err =>
            right; right; right; left
            exact ⟨r.serviceID, err, by simp [hreg]⟩
          | none =>
            right; right; right; right
            exact ⟨r.serviceID, by simp [hreg]⟩
  have hnoexit : ∀ e ∈ (main.initConsul cfg o agent).trace, e.isExit = false := by
    intro e hmem
    rcases hfive with h | ⟨_, h⟩ | ⟨_, h⟩ | ⟨_, _, h⟩ | ⟨_, h⟩ <;> rw [h] at hmem <;>
      simp at hmem
    · subst hmem; rfl
    · rcases hmem with rfl | rfl <;> rfl
    · rcases hmem with rfl | rfl | rfl <;> rfl
    · rcases hmem with rfl | rfl | rfl <;> rfl
  refine ⟨hfive, hnoexit, ?_, ?_⟩
  · unfold main main.shutdown
    cases hl : o.listenFail with
    | some err => exact ⟨[Event.Exit 1], by simp⟩
    | none =>
      cases hs : o.signal with
      | false => exact ⟨[], by simp⟩
      | true =>
        cases hc : (main.initConsul cfg o agent).consulRegistry <;>
          cases hd : o.shutdownFail <;> simp [hc]
  · intro hl hs
    unfold main main.shutdown
    cases hc : (main.initConsul cfg o agent).consulRegistry with
    | none =>
      refine ⟨(main.initConsul cfg o agent).trace ++ [Event.ListenAndServe none, Event.Signal],
        ?_, ?_⟩
      · cases hd : o.shutdownFail <;> simp [hl, hs, hc]
      · intro e hmem
        rcases List.mem_append.mp hmem with h | h
        · exact hnoexit e h
        · simp at h
          rcases h with rfl | rfl <;> rfl
    | some r =>
      refine ⟨(main.initConsul cfg o agent).trace ++ [Event.ListenAndServe none, Event.Signal,
        Event.Deregister r.serviceID
          (r.Deregister (WithTimeout (5 * Second)) o.deregisterFail
            (main.initConsul cfg o agent).agent).1], ?_, ?_⟩
      · cases hd : o.shutdownFail <;> simp [hl, hs, hc]
      · intro e hmem
        rcases List.mem_append.mp hmem with h | h
        · exact hnoexit e h
        · simp at h
          rcases h with rfl | rfl | rfl <;> rfl

/-! ### Register, then look up -/

theorem lookup_services_absent (id : String) : ∀ (l : List AgentServiceRegistration),
    (∀ s ∈ l, s.ID ≠ id) →
    (l.map fun s =>
      (s.ID, ({ ID := s.ID, Service := s.Name, Tags := s.Tags, Meta := s.Meta, Port := s.Port,
                Address := s.Address } : AgentService))).lookup id = none := by
  intro l
  induction l with
  | nil => intro _; rfl
  | cons a l ih =>
    intro h
    have ha : a.ID ≠ id := h a (List.mem_cons_self _ _)
    have hne : (id == a.ID) = false := by
      simp only [beq_eq_false_iff_ne, ne_eq]
      exact fun h => ha h.symm
    simp only [List.map_cons, List.lookup, hne]
    exact ih (fun s hs => h s (List.mem_cons_of_mem _ hs))

/-- C12: with the agent as a map from service ID to stored record, after `Register` returns
success on a registrar built from `cfg`, `GetServiceInfo` on the same registrar returns a record
held under the registrar's `serviceID` whose address and port are those of `cfg`; and when the
agent holds nothing under that ID, `GetServiceInfo` returns the "not found" error. -/
theorem register_then_getServiceInfo (cfg : Config) (api : Api) (r : ConsulRegistry)
    (ctx1 ctx2 : Context) (fail : Option String) (agent : Agent)
    (hr : NewConsulRegistry api cfg = .ok r)
    (hreg : (r.Register ctx1 fail agent).1 = none) :
    (∃ svc, r.GetServiceInfo ctx2 none (r.Register ctx1 fail agent).2 = .ok svc ∧
      svc.ID = generateServiceID cfg ∧
      svc.Address = cfg.Service.Address ∧ svc.Port = cfg.Service.Port) ∧
    (∀ other : Agent, (∀ s ∈ other.services, s.ID ≠ r.serviceID) →
      r.GetServiceInfo ctx2 none other =
        .error (Errorf "服务 %s 未找到" [FmtArg.str r.serviceID])) := by
  obtain ⟨hc, hid⟩ := newConsulRegistry_ok hr
  constructor
  · cases fail with
    | some e => simp [ConsulRegistry.Register, Agent.ServiceRegister] at hreg
    | none =>
      refine ⟨{ ID := r.serviceID, Service := r.config.App.Name,
                Tags := (ConsulRegistry.Register.service r).Tags,
                Meta := (ConsulRegistry.Register.service r).Meta,
                Port := r.config.Service.Port, Address := r.config.Service.Address },
        ?_, hid, by rw [hc], by rw [hc]⟩
      simp [ConsulRegistry.GetServiceInfo, Agent.Services, ConsulRegistry.Register,
        Agent.ServiceRegister, ConsulRegistry.Register.service, List.lookup]
  · intro other habs
    unfold ConsulRegistry.GetServiceInfo Agent.Services
    simp only [lookup_services_absent r.serviceID other.services habs]

/-- C12, at a concrete input: registering the sample configuration with an empty agent. -/
theorem register_then_getServiceInfo_witness :
    ∃ svc, ConsulRegistry.GetServiceInfo
        { client := { config := { Address := "127.0.0.1:8500", Token := "" } },
          config := sampleConfig true "10.0.0.5" 9090 "",
          serviceID := "svc-10.0.0.5-9090" }
        (WithTimeout (5 * Second)) none
        (ConsulRegistry.Register
          { client := { config := { Address := "127.0.0.1:8500", Token := "" } },
            config := sampleConfig true "10.0.0.5" 9090 "",
            serviceID := "svc-10.0.0.5-9090" }
          (WithTimeout (10 * Second)) none { services := [] }).2 = .ok svc ∧
      svc.ID = generateServiceID (sampleConfig true "10.0.0.5" 9090 "") ∧
      svc.Address = "10.0.0.5" ∧ svc.Port = 9090 :=
  (register_then_getServiceInfo (sampleConfig true "10.0.0.5" 9090 "") sampleApi
    { client := { config := { Address := "127.0.0.1:8500", Token := "" } },
      config := sampleConfig true "10.0.0.5" 9090 "",
      serviceID := "svc-10.0.0.5-9090" }
    (WithTimeout (10 * Second)) (WithTimeout (5 * Second)) none { services := [] }
    (by
      simp only [NewConsulRegistry, sampleApi]
      exact congrArg Except.ok (by decide))
    (by decide)).1

/-! ### The deadline handed to `Register` -/

theorem initConsul_timed_after (cfg : Config) (o : Outcomes) (elapsed : Nat) (agent : Agent) :
    (main.initConsul.timed cfg o.api (AgentReply.after elapsed o.registerFail) agent).map
      (fun p => p.2) = some (main.initConsul cfg o agent) := by
  unfold main.initConsul.timed main.initConsul ConsulRegistry.Register.timed
  cases he : cfg.IsConsulEnabled with
  | false => simp
  | true =>
    cases hv : ValidateConfig cfg with
    | some err => simp
    | none => cases hr : NewConsulRegistry o.api cfg <;> simp

/-- C13 (the code at the failing input): `Register` does not consult its context, so with any
two contexts it behaves the same; when the agent never answers it does not return, whatever the
deadline, and `main` stays in the Consul block without starting the listener; and an answer that
comes after 30 s is returned after 30 s although the context carries a 10 s deadline. -/
theorem register_not_bounded_by_deadline :
    (∀ (r : ConsulRegistry) (ctx1 ctx2 : Context) (reply : AgentReply) (agent : Agent),
      ConsulRegistry.Register.timed r ctx1 reply agent
        = ConsulRegistry.Register.timed r ctx2 reply agent) ∧
    (∀ (r : ConsulRegistry) (agent : Agent),
      ConsulRegistry.Register.timed r (WithTimeout (10 * Second)) AgentReply.never agent
        = none) ∧
    main.initConsul.timed (sampleConfig true "10.0.0.5" 9090 "") sampleApi AgentReply.never
        { services := [] } = none ∧
    (∀ (r : ConsulRegistry) (agent : Agent),
      ∃ res, ConsulRegistry.Register.timed r (WithTimeout (10 * Second))
          (AgentReply.after (30 * Second) (some "i/o timeout")) agent = some (30 * Second, res) ∧
        (WithTimeout (10 * Second)).timeout = some (10 * Second) ∧
        10 * Second < 30 * Second) := by
  refine ⟨?_, ?_, ?_, ?_⟩
  · intro r ctx1 ctx2 reply agent
    cases reply <;> rfl
  · intro r agent
    rfl
  · have hr : NewConsulRegistry sampleApi (sampleConfig true "10.0.0.5" 9090 "") =
        .ok { client := { config := { Address := "127.0.0.1:8500", Token := "" } },
              config := sampleConfig true "10.0.0.5" 9090 "",
              serviceID := "svc-10.0.0.5-9090" } := by
      simp only [NewConsulRegistry, sampleApi]
      exact congrArg Except.ok (by decide)
    have hv : ValidateConfig (sampleConfig true "10.0.0.5" 9090 "") = none := by decide
    have he : (sampleConfig true "10.0.0.5" 9090 "").IsConsulEnabled = true := rfl
    simp [main.initConsul.timed, hr, hv, he, ConsulRegistry.Register.timed]
  · intro r agent
    exact ⟨_, rfl, rfl, by decide⟩

/-! ### Configurations built by `LoadConfig` -/

theorem getEnv_ne_empty (w : World) (key defaultValue : String) (hd : defaultValue ≠ "") :
    getEnv w key defaultValue ≠ "" := by
  unfold getEnv
  by_cases h : w.Getenv key = ""
  · simp [h, hd]
  · simp [h]

theorem getServiceAddress_ne_empty (w : World) : getServiceAddress w ≠ "" := by
  have hprobe : getServiceAddress.fromProbe w ≠ "" := by
    unfold getServiceAddress.fromProbe
    by_cases hp : getOutboundIP w = ""
    · simp [hp]
    · simp [hp]
  unfold getServiceAddress
  by_cases h0 : w.Getenv "SERVICE_ADDRESS" = ""
  · cases hh : w.hostname with
    | error e => simpa [h0] using hprobe
    | ok h =>
      by_cases h1 : h = ""
      · simpa [h0, h1] using hprobe
      · by_cases h2 : h ≠ "localhost" ∧ h ≠ "127.0.0.1"
        · simp [h0, h1, h2]
        · simpa [h0, h1, h2] using hprobe
  · simp [h0]

theorem loadConfig_sources (files : DotEnvFiles) (w : World) :
    ∃ w2 : World, (LoadConfig files w).1.Service.Address = getServiceAddress w2 ∧
      (LoadConfig files w).1.Consul.Address = getEnv w2 "CONSUL_HTTP_ADDR" "http://127.0.0.1:8500" ∧
      (LoadConfig files w).2 = none :=
  ⟨_, rfl, rfl, rfl⟩

theorem validateConfig_of_addresses (cfg : Config) (hc : cfg.Consul.Address ≠ "")
    (hs : cfg.Service.Address ≠ "") :
    (ValidateConfig cfg = none ↔
      (cfg.Consul.Enabled = true ∧ 0 < cfg.Service.Port ∧
        (cfg.Service.Scheme = "http" ∨ cfg.Service.Scheme = "https"))) ∧
    (ValidateConfig cfg = some (Errorf "Consul 未启用" []) ∨
      ValidateConfig cfg = some (Errorf "服务端口无效: %d" [FmtArg.int cfg.Service.Port]) ∨
      ValidateConfig cfg =
        some (Errorf "服务协议必须是 http 或 https: %s" [FmtArg.str cfg.Service.Scheme]) ∨
      ValidateConfig cfg = none) := by
  unfold ValidateConfig Config.IsConsulEnabled
  by_cases h1 : cfg.Consul.Enabled = true
  · by_cases h4 : cfg.Service.Port ≤ 0
    · simp [h1, hc, hs, h4]
    · by_cases h5 : cfg.Service.Scheme = "http"
      · simp [h1, hc, hs, h4, h5]
        omega
      · by_cases h6 : cfg.Service.Scheme = "https"
        · simp [h1, hc, hs, h4, h6]
          omega
        · simp [h1, hc, hs, h4, h5, h6]
  · simp [h1]

theorem validate_messages_distinct (p : Int) (scheme : String) :
    (Errorf "Consul 未启用" [] ≠ Errorf "Consul 地址不能为空" [] ∧
      Errorf "服务端口无效: %d" [FmtArg.int p] ≠ Errorf "Consul 地址不能为空" [] ∧
      Errorf "服务协议必须是 http 或 https: %s" [FmtArg.str scheme]
        ≠ Errorf "Consul 地址不能为空" []) ∧
    (Errorf "Consul 未启用" [] ≠ Errorf "服务地址不能为空" [] ∧
      Errorf "服务端口无效: %d" [FmtArg.int p] ≠ Errorf "服务地址不能为空" [] ∧
      Errorf "服务协议必须是 http 或 https: %s" [FmtArg.str scheme]
        ≠ Errorf "服务地址不能为空" []) := by
  have hport : ∃ tail, (Errorf "服务端口无效: %d" [FmtArg.int p]).data
      = '服' :: '务' :: '端' :: tail :=
    ⟨'口' :: '无' :: '效' :: ':' :: ' ' :: formatInt p, by
      show sprintfAux ['服', '务', '端', '口', '无', '效', ':', ' ', '%', 'd'] _ = _
      simp [sprintfAux]⟩
  have hscheme : ∃ tail, (Errorf "服务协议必须是 http 或 https: %s" [FmtArg.str scheme]).data
      = '服' :: '务' :: '协' :: tail :=
    ⟨['议', '必', '须', '是', ' ', 'h', 't', 't', 'p', ' ', '或', ' ', 'h', 't', 't', 'p', 's',
        ':', ' '] ++ scheme.data, by
      show sprintfAux ['服', '务', '协', '议', '必', '须', '是', ' ', 'h', 't', 't', 'p', ' ',
        '或', ' ', 'h', 't', 't', 'p', 's', ':', ' ', '%', 's'] _ = _
      simp [sprintfAux]⟩
  have hconsul : (Errorf "Consul 地址不能为空" []).data
      = ['C', 'o', 'n', 's', 'u', 'l', ' ', '地', '址', '不', '能', '为', '空'] := by decide
  have hservice : (Errorf "服务地址不能为空" []).data
      = ['服', '务', '地', '址', '不', '能', '为', '空'] := by decide
  obtain ⟨t1, h1⟩ := hport
  obtain ⟨t2, h2⟩ := hscheme
  refine ⟨⟨by decide, ?_, ?_⟩, ⟨by decide, ?_, ?_⟩⟩
  · intro h
    have hd := congrArg String.data h
    rw [h1, hconsul] at hd
    simp at hd
  · intro h
    have hd := congrArg String.data h
    rw [h2, hconsul] at hd
    simp at hd
  · intro h
    have hd := congrArg String.data h
    rw [h1, hservice] at hd
    simp at hd
  · intro h
    have hd := congrArg String.data h
    rw [h2, hservice] at hd
    simp at hd

/-- C14: for every host and every set of `.env` files, `LoadConfig` returns no error and a
configuration whose `Service.Address` and `Consul.Address` are non-empty; so `ValidateConfig` on
it succeeds exactly when integration is enabled, the port is positive and the scheme is `http` or
`https`, fails only for one of these three reasons, and never returns either of its two
"address is empty" errors. -/
theorem loadConfig_addresses_nonempty (files : DotEnvFiles) (w : World) :
    (LoadConfig files w).2 = none ∧
    (LoadConfig files w).1.Service.Address ≠ "" ∧
    (LoadConfig files w).1.Consul.Address ≠ "" ∧
    (ValidateConfig (LoadConfig files w).1 = none ↔
      ((LoadConfig files w).1.Consul.Enabled = true ∧ 0 < (LoadConfig files w).1.Service.Port ∧
        ((LoadConfig files w).1.Service.Scheme = "http" ∨
          (LoadConfig files w).1.Service.Scheme = "https"))) ∧
    (∀ msg, ValidateConfig (LoadConfig files w).1 = some msg →
      (LoadConfig files w).1.Consul.Enabled = false ∨ (LoadConfig files w).1.Service.Port ≤ 0 ∨
        ((LoadConfig files w).1.Service.Scheme ≠ "http" ∧
          (LoadConfig files w).1.Service.Scheme ≠ "https")) ∧
    ValidateConfig (LoadConfig files w).1 ≠ some (Errorf "Consul 地址不能为空" []) ∧
    ValidateConfig (LoadConfig files w).1 ≠ some (Errorf "服务地址不能为空" []) := by
  obtain ⟨w2, hsa, hca, herr⟩ := loadConfig_sources files w
  have hs : (LoadConfig files w).1.Service.Address ≠ "" := by
    rw [hsa]
    exact getServiceAddress_ne_empty w2
  have hc : (LoadConfig files w).1.Consul.Address ≠ "" := by
    rw [hca]
    exact getEnv_ne_empty w2 _ _ (by decide)
  obtain ⟨hiff, hmsgs⟩ := validateConfig_of_addresses (LoadConfig files w).1 hc hs
  obtain ⟨⟨a1, a2, a3⟩, ⟨b1, b2, b3⟩⟩ := validate_messages_distinct
    (LoadConfig files w).1.Service.Port (LoadConfig files w).1.Service.Scheme
  refine ⟨herr, hs, hc, hiff, ?_, ?_, ?_⟩
  · intro msg hmsg
    by_contra hcon
    have hok : ValidateConfig (LoadConfig files w).1 = none := by
      apply hiff.mpr
      cases he : (LoadConfig files w).1.Consul.Enabled with
      | false => exact absurd (Or.inl he) hcon
      | true =>
        refine ⟨rfl, ?_, ?_⟩
        · by_contra hp
          exact hcon (Or.inr (Or.inl (not_lt.mp hp)))
        · by_contra hsch
          exact hcon (Or.inr (Or.inr ⟨fun h => hsch (Or.inl h), fun h => hsch (Or.inr h)⟩))
    rw [hok] at hmsg
    cases hmsg
  · intro h
    rcases hmsgs with h1 | h1 | h1 | h1 <;> rw [h1] at h
    · exact a1 (Option.some.inj h)
    · exact a2 (Option.some.inj h)
    · exact a3 (Option.some.inj h)
    · cases h
  · intro h
    rcases hmsgs with h1 | h1 | h1 | h1 <;> rw [h1] at h
    · exact b1 (Option.some.inj h)
    · exact b2 (Option.some.inj h)
    · exact b3 (Option.some.inj h)
    · cases h

end GinTemplate
